import Mathlib

/-!
Shallow embedding of `src/main.py` of the easyreach repository: a CLI
launcher that detects an IP address via an external command, configures an
external simulation engine (settings, extensions, a toy scene) and drives a
step loop with guaranteed cleanup.  External effects (subprocess calls, the
engine API, environment-variable writes, imports, prints) are modelled as an
event trace produced by executable Lean functions translated line by line
from the Python source.
-/

namespace EasyReach

/-- The default whitespace characters removed by Python `str.strip()`
(space, tab, newline, carriage return, vertical tab, form feed). -/
def isPyWhitespace (c : Char) : Bool :=
  c = ' ' || c = '\t' || c = '\n' || c = '\r' || c = '\x0b' || c = '\x0c'

/-- Python `str.strip()` on the underlying character list: drop whitespace
from the front, then from the back. -/
def pyStripList (l : List Char) : List Char :=
  ((l.dropWhile isPyWhitespace).reverse.dropWhile isPyWhitespace).reverse

/-- Python `str.strip()` with the default (whitespace) argument. -/
def pyStrip (s : String) : String :=
  ⟨pyStripList s.data⟩

/-- ASCII lower-casing of one character; `platform.machine()` values are
ASCII, on which Python `str.lower()` agrees with this map. -/
def asciiLowerChar (c : Char) : Char :=
  if 'A' ≤ c && c ≤ 'Z' then Char.ofNat (c.toNat + 32) else c

/-- ASCII lower-casing of a string (Python `str.lower()` on ASCII input). -/
def asciiLower (s : String) : String :=
  ⟨s.data.map asciiLowerChar⟩

/-- Python exceptions that can cross the boundaries modelled here. -/
inductive PyExc where
  | fileNotFound
  | calledProcessError (returncode : Nat)
  | timeoutExpired
  | keyboardInterrupt
  | other (name : String)
  deriving DecidableEq, Repr

/-- Observable behaviour of an external command in the operating-system
environment: whether the executable exists, how many seconds it takes to
complete (`none` = it never completes), its exit code and its captured
standard output. -/
structure CmdBehavior where
  found : Bool
  runtime : Option Nat
  exitCode : Nat
  stdout : String
  deriving DecidableEq, Repr

/-- Outcome of one `subprocess.run` call: captured stdout, a raised Python
exception, or no return at all (the call blocks forever). -/
inductive SubprocOutcome where
  | ok (stdout : String)
  | exc (e : PyExc)
  | hang
  deriving DecidableEq, Repr

/-- Semantics of `subprocess.run(cmd, capture_output=True, text=True,
check=True, timeout=t)` against the behaviour of `cmd`: a missing executable
raises `FileNotFoundError`; with a timeout `t`, a command that does not
finish within `t` seconds raises `TimeoutExpired`; without a timeout, a
command that never finishes blocks forever; otherwise `check=True` raises
`CalledProcessError` on a non-zero exit code, else stdout is returned. -/
def subprocessRun (b : CmdBehavior) (timeout : Option Nat) : SubprocOutcome :=
  if !b.found then .exc .fileNotFound
  else
    match timeout, b.runtime with
    | some _, none => .exc .timeoutExpired
    | some t, some r =>
        if t < r then .exc .timeoutExpired
        else if b.exitCode ≠ 0 then .exc (.calledProcessError b.exitCode)
        else .ok b.stdout
    | none, none => .hang
    | none, some _ =>
        if b.exitCode ≠ 0 then .exc (.calledProcessError b.exitCode)
        else .ok b.stdout

/-- Result of running a piece of the Python program: a normal return, a
`sys.exit(code)` that nothing catches, an uncaught exception (CPython then
prints the traceback to stderr and terminates the process with status 1),
or no termination. -/
inductive ProcResult (α : Type) where
  | ret (a : α)
  | exit (code : Nat)
  | uncaught (e : PyExc)
  | hang
  deriving DecidableEq, Repr

/-- The process exit status a result produces: `sys.exit(n)` ends the
process with status `n`; an uncaught exception makes CPython terminate the
process with status 1; a normal return or a hang does not end the process. -/
def processExitCode {α : Type} : ProcResult α → Option Nat
  | .ret _ => none
  | .exit n => some n
  | .uncaught _ => some 1
  | .hang => none

/-- The operating-system environment `main.py` runs against: the reported
machine architecture and the behaviour of the two external commands it may
invoke. -/
structure OsEnv where
  machine : String
  tailscaleCmd : CmdBehavior
  curlCmd : CmdBehavior
  deriving DecidableEq, Repr

/-- The exact message printed when the tailscale executable is missing. -/
def tailscaleNotFoundMsg : String :=
  "Error: tailscale command not found. Please install Tailscale."

/-- `get_ip_address(use_tailscale)` from `src/main.py` lines 14-52: run
`tailscale ip -4` (no timeout) or `curl -s ifconfig.me` (10-second timeout),
strip the captured stdout, print-and-`sys.exit(1)` on the handled failures.
On the tailscale path only `FileNotFoundError` and `CalledProcessError` are
caught; on the curl path only `CalledProcessError` and `TimeoutExpired` are
caught; any other exception propagates uncaught.  Returns the printed lines
paired with the result. -/
def get_ip_address (env : OsEnv) (use_tailscale : Bool) :
    List String × ProcResult String :=
  let pre := ["Detecting IP address..."]
  if use_tailscale then
    match subprocessRun env.tailscaleCmd none with
    | .ok out =>
        let ip := pyStrip out
        if ip = "" then
          (pre ++ ["Error: Could not detect Tailscale IP. Is Tailscale running?"],
           .exit 1)
        else
          (pre ++ ["Detected Tailscale IP: " ++ ip], .ret ip)
    | .exc .fileNotFound =>
        (pre ++ [tailscaleNotFoundMsg], .exit 1)
    | .exc (.calledProcessError c) =>
        (pre ++ ["Error running tailscale command: CalledProcessError " ++ toString c],
         .exit 1)
    | .exc e => (pre, .uncaught e)
    | .hang => (pre, .hang)
  else
    match subprocessRun env.curlCmd (some 10) with
    | .ok out =>
        let ip := pyStrip out
        if ip = "" then
          (pre ++ ["Error: Could not detect public IP"], .exit 1)
        else
          (pre ++ ["Detected public IP: " ++ ip], .ret ip)
    | .exc (.calledProcessError c) =>
        (pre ++ ["Error detecting public IP: CalledProcessError " ++ toString c],
         .exit 1)
    | .exc .timeoutExpired =>
        (pre ++ ["Error detecting public IP: TimeoutExpired"], .exit 1)
    | .exc e => (pre, .uncaught e)
    | .hang => (pre, .hang)

/-- A value passed to `kit.set_setting`: bool, string or int. -/
inductive SettingVal where
  | b (x : Bool)
  | s (x : String)
  | i (x : Int)
  deriving DecidableEq, Repr

/-- The static engine launch-configuration record `CONFIG`
(`src/main.py` lines 117-126). -/
structure LaunchConfig where
  width : Nat
  height : Nat
  window_width : Nat
  window_height : Nat
  headless : Bool
  hide_ui : Bool
  renderer : String
  display_options : Nat
  deriving DecidableEq, Repr

/-- The literal `CONFIG` dictionary of `src/main.py`. -/
def CONFIG : LaunchConfig :=
  { width := 1280, height := 720, window_width := 1920, window_height := 1080,
    headless := true, hide_ui := false, renderer := "RaytracedLighting",
    display_options := 3286 }

/-- Observable events of one execution of `main`: prints, the IP-detection
call, the environment-variable write, module imports, the engine launch and
its configuration calls, scene construction, world steps and the engine
close. -/
inductive Event where
  | print (s : String)
  | detectIpCall
  | setEnvVar (name value : String)
  | importModule (name : String)
  | launchEngine (cfg : LaunchConfig)
  | setSetting (key : String) (v : SettingVal)
  | enableExtension (name : String)
  | engineUpdate
  | createWorld
  | addGroundPlane
  | addReference (usd_path prim_path : String)
  | addCuboid (prim_path name : String)
  | worldReset
  | stepWorld (i : Nat)
  | closeEngine
  deriving DecidableEq, Repr

/-- Behaviour of the external engine as observed by the run loop: the
answers of `kit._app.is_running()` and `kit.is_exiting()` before iteration
`i`, the exception (if any) raised inside `world.step` at iteration `i`,
and the asset-root path the engine reports. -/
structure EngineEnv where
  running : Nat → Bool
  exiting : Nat → Bool
  stepExc : Nat → Option PyExc
  assetsRoot : String

/-- How the `while` loop of `src/main.py` lines 193-201 ended. -/
inductive LoopExit where
  | normal
  | interrupted
  | excProp (e : PyExc)
  | fuelOut
  deriving DecidableEq, Repr

/-- The `while kit._app.is_running() and not kit.is_exiting(): world.step(...)`
loop, fuel-indexed: at iteration `i`, if the condition holds the loop emits a
`stepWorld i` event and either continues, or ends with the exception raised
by that step.  `fuelOut` means the loop has not ended within `fuel`
iterations. -/
def stepLoop (eng : EngineEnv) : Nat → Nat → List Event × LoopExit
  | 0, _ => ([], .fuelOut)
  | fuel + 1, i =>
      if eng.running i && !eng.exiting i then
        match eng.stepExc i with
        | none =>
            let rest := stepLoop eng fuel (i + 1)
            (Event.stepWorld i :: rest.1, rest.2)
        | some .keyboardInterrupt => ([Event.stepWorld i], .interrupted)
        | some e => ([Event.stepWorld i], .excProp e)
      else ([], .normal)

/-- The `try ... except KeyboardInterrupt ... finally: kit.close()` tail of
`main` (`src/main.py` lines 192-207): a `KeyboardInterrupt` is caught and a
shutdown message printed; the `finally` block closes the engine and prints a
final message on every path out of the `try`; any other exception propagates
after the `finally` block has run.  If the loop is still running after
`fuel` iterations the `finally` block has not yet run. -/
def runUntilClosed (eng : EngineEnv) (fuel : Nat) : List Event × ProcResult Unit :=
  let body := stepLoop eng fuel 0
  match body.2 with
  | .fuelOut => (body.1, .hang)
  | .normal =>
      (body.1 ++ [.closeEngine, .print "Isaac Sim closed successfully."], .ret ())
  | .interrupted =>
      (body.1 ++ [.print "\nShutting down Isaac Sim...", .closeEngine,
                  .print "Isaac Sim closed successfully."], .ret ())
  | .excProp e =>
      (body.1 ++ [.closeEngine, .print "Isaac Sim closed successfully."],
       .uncaught e)

/-- Python left-aligned padding `f"{x:<w}"`: the text followed by spaces up
to width `w` (a longer text is kept whole). -/
def padRight (s : String) (w : Nat) : String :=
  s ++ ⟨List.replicate (w - s.length) ' '⟩

/-- A 60-character-wide row of the connection box, sides included. -/
def boxRow (s : String) : String :=
  "║" ++ padRight s 60 ++ "║"

/-- The top border of the connection box. -/
def boxTop : String :=
  "╔" ++ ⟨List.replicate 60 '═'⟩ ++ "╗"

/-- The bottom border of the connection box. -/
def boxBottom : String :=
  "╚" ++ ⟨List.replicate 60 '═'⟩ ++ "╝"

/-- `print_connection_info` from `src/main.py` lines 63-76: the formatted
connection box, as the list of printed lines. -/
def print_connection_info (ip : String) (port : Int) : List String :=
  ["",
   boxTop,
   boxRow "",
   boxRow "       Isaac Sim is Ready!",
   boxRow "",
   boxRow "  Connect using Isaac Sim WebRTC Streaming Client:",
   boxRow "",
   "║  IP Address:  " ++ padRight ip 44 ++ " ║",
   "║  Port:        " ++ padRight (toString port) 44 ++ " ║",
   boxRow "",
   boxBottom,
   ""]

/-- The three CLI options of `main` with their declared defaults
(`src/main.py` lines 80-86). -/
structure Args where
  port : Int := 49100
  gpu : Int := 0
  tailscale : Bool := false
  deriving DecidableEq, Repr

/-- The machine strings on which `main` exits early
(`src/main.py` line 96). -/
def armMachines : List String := ["aarch64", "arm64"]

/-- The configuration block of `main` after the engine launch: the imports,
the five `set_setting` calls, the three `enable_extension` calls, the
`kit.update()`, and the robot-scene setup (`src/main.py` lines 103-189),
given the detected endpoint IP. -/
def configEvents (a : Args) (eng : EngineEnv) (endpoint_ip : String) : List Event :=
  [.setEnvVar "CUDA_VISIBLE_DEVICES" (toString a.gpu),
   .print "",
   .print "Starting Isaac Sim with livestream...",
   .print ("  Port: " ++ toString a.port),
   .print ("  GPU: " ++ toString a.gpu),
   .print ("  Endpoint: " ++ endpoint_ip),
   .print "",
   .importModule "isaacsim",
   .launchEngine CONFIG,
   .importModule "isaacsim.core.utils.extensions",
   .setSetting "/app/window/drawMouse" (.b true),
   .setSetting "/app/livestream/publicEndpointAddress" (.s endpoint_ip),
   .setSetting "/app/livestream/port" (.i a.port),
   .setSetting "/renderer/multiGpu/Enabled" (.b false),
   .setSetting "/renderer/activeGpu" (.i a.gpu),
   .enableExtension "omni.services.livestream.nvcf",
   .enableExtension "omni.kit.widget.stage",
   .enableExtension "omni.kit.widget.layers",
   .engineUpdate,
   .importModule "isaacsim.core.api",
   .importModule "isaacsim.core.utils.stage",
   .importModule "isaacsim.storage.native",
   .importModule "isaacsim.core.api.objects",
   .print "Setting up robot simulation...",
   .createWorld,
   .addGroundPlane,
   .addReference (eng.assetsRoot ++ "/Isaac/Robots/FrankaRobotics/FrankaPanda/franka.usd")
     "/World/Franka",
   .addCuboid "/World/Cube" "target_cube",
   .worldReset,
   .print "Robot setup complete!",
   .print "  - Franka Panda robot added at /World/Franka",
   .print "  - Red cube added at [0.5, 0.0, 0.3]"]
  ++ (print_connection_info endpoint_ip a.port).map Event.print

/-- `main` from `src/main.py` lines 80-207: exit 0 on an ARM64-reported
architecture; otherwise detect the IP (exiting as `get_ip_address` does on
failure), set `CUDA_VISIBLE_DEVICES`, import and launch the engine,
configure it, build the toy scene, and run the step loop with guaranteed
cleanup.  Returns the event trace and the result. -/
def main (env : OsEnv) (eng : EngineEnv) (fuel : Nat) (a : Args) :
    List Event × ProcResult Unit :=
  if asciiLower env.machine ∈ armMachines then
    ([.print "Livestream is not supported on ARM64 architecture. Exiting."],
     .exit 0)
  else
    let ipCall := get_ip_address env a.tailscale
    let ipEvents := Event.detectIpCall :: ipCall.1.map Event.print
    match ipCall.2 with
    | .ret endpoint_ip =>
        let loopPart := runUntilClosed eng fuel
        (ipEvents ++ configEvents a eng endpoint_ip ++ loopPart.1, loopPart.2)
    | .exit n => (ipEvents, .exit n)
    | .uncaught e => (ipEvents, .uncaught e)
    | .hang => (ipEvents, .hang)

/-- One recognised token of the command line, at the granularity typer
parses it to: a value for one of the three declared options, or anything
else. -/
inductive CliArg where
  | portOpt (n : Int)
  | gpuOpt (n : Int)
  | tailscaleFlag
  | unknown (s : String)
  deriving DecidableEq, Repr

/-- Modelled from the spec: the command-line surface typer derives from the
signature of `main` — the repository declares the options `--port`, `--gpu`
and `--tailscale` with their defaults (`src/main.py` lines 80-86), while the
parsing itself is library code not present under `src/`.  Later occurrences
override earlier ones; an unrecognised option is rejected. -/
def parseCliFrom (acc : Args) : List CliArg → Except String Args
  | [] => .ok acc
  | .portOpt n :: rest => parseCliFrom { acc with port := n } rest
  | .gpuOpt n :: rest => parseCliFrom { acc with gpu := n } rest
  | .tailscaleFlag :: rest => parseCliFrom { acc with tailscale := true } rest
  | .unknown s :: _ => .error ("No such option: " ++ s)

/-- Modelled from the spec: parse a command line starting from the declared
defaults. -/
def parseCli : List CliArg → Except String Args :=
  parseCliFrom {}

/-- Recogniser for `set_setting` events. -/
def isSetSettingEvt : Event → Bool
  | .setSetting _ _ => true
  | _ => false

/-- Recogniser for `enable_extension` events. -/
def isEnableExtEvt : Event → Bool
  | .enableExtension _ => true
  | _ => false

/-- Recogniser for engine-configuration calls: `set_setting` or
`enable_extension`. -/
def isConfigCallEvt (e : Event) : Bool :=
  isSetSettingEvt e || isEnableExtEvt e

/-- Recogniser for module-import events. -/
def isImportEvt : Event → Bool
  | .importModule _ => true
  | _ => false

/-- The prefix of a trace strictly before the first module import. -/
def beforeFirstImport (tr : List Event) : List Event :=
  tr.takeWhile (fun e => !isImportEvt e)

/-- The part of a trace strictly after the first `closeEngine` event. -/
def afterFirstClose (tr : List Event) : List Event :=
  (tr.dropWhile (fun e => e != Event.closeEngine)).tail

/-- Replace the runtime of the tailscale command, leaving everything else of
the environment unchanged. -/
def setTsRuntime (env : OsEnv) (r : Option Nat) : OsEnv :=
  { env with tailscaleCmd := { env.tailscaleCmd with runtime := r } }

/-- Witness environment: an x86_64 machine where both external commands are
present and fast and curl prints a public IP. -/
def envCurlOk : OsEnv :=
  { machine := "x86_64",
    tailscaleCmd := { found := true, runtime := some 1, exitCode := 0,
                      stdout := "100.64.0.5\n" },
    curlCmd := { found := true, runtime := some 1, exitCode := 0,
                 stdout := "203.0.113.7" } }

/-- Witness environment: the tailscale executable is missing. -/
def envTsAbsent : OsEnv :=
  { envCurlOk with
    tailscaleCmd := { found := false, runtime := some 1, exitCode := 0,
                      stdout := "" } }

/-- Witness environment: the curl executable is missing. -/
def envCurlAbsent : OsEnv :=
  { envCurlOk with
    curlCmd := { found := false, runtime := some 1, exitCode := 0,
                 stdout := "" } }

/-- Witness environment: curl takes 11 seconds, beyond the 10-second
timeout. -/
def envCurlSlow : OsEnv :=
  { envCurlOk with
    curlCmd := { found := true, runtime := some 11, exitCode := 0,
                 stdout := "203.0.113.7" } }

/-- Witness environment: the tailscale command never completes. -/
def envTsHang : OsEnv :=
  { envCurlOk with
    tailscaleCmd := { found := true, runtime := none, exitCode := 0,
                      stdout := "" } }

/-- Witness environment: the machine reports `aarch64`. -/
def envArmLower : OsEnv := { envCurlOk with machine := "aarch64" }

/-- Witness environment: the machine reports `ARM64`. -/
def envArmUpper : OsEnv := { envCurlOk with machine := "ARM64" }

/-- Witness environment: the machine reports `AArch64`. -/
def envArmMixed : OsEnv := { envCurlOk with machine := "AArch64" }

/-- Witness engine: the engine reports it has stopped running after two
frames. -/
def engStops : EngineEnv :=
  { running := fun i => i < 2, exiting := fun _ => false,
    stepExc := fun _ => none, assetsRoot := "omniverse://assets" }

/-- Witness engine: a `KeyboardInterrupt` arrives during the second frame. -/
def engInterrupt : EngineEnv :=
  { running := fun _ => true, exiting := fun _ => false,
    stepExc := fun i => if i = 1 then some PyExc.keyboardInterrupt else none,
    assetsRoot := "omniverse://assets" }

/-- Dropping a prefix twice is the same as dropping it once. -/
lemma dropWhile_self_dropWhile {α : Type} (p : α → Bool) (l : List α) :
    (l.dropWhile p).dropWhile p = l.dropWhile p := by
  induction l with
  | nil => rfl
  | cons a t ih =>
      cases h : p a
      · simp [List.dropWhile_cons, h]
      · simp [List.dropWhile_cons, h, ih]

/-- The head surviving `dropWhile p` does not satisfy `p`. -/
lemma head?_dropWhile_false {α : Type} (p : α → Bool) (l : List α) (a : α)
    (h : (l.dropWhile p).head? = some a) : p a = false := by
  induction l with
  | nil => simp [List.dropWhile] at h
  | cons b t ih =>
      cases hb : p b
      · rw [List.dropWhile_cons, if_neg (by simp [hb])] at h
        simp at h
        exact h ▸ hb
      · rw [List.dropWhile_cons, if_pos (by simp [hb])] at h
        exact ih h

/-- `dropWhile` keeps the last element of a list it does not empty. -/
lemma getLast?_dropWhile_ne_nil {α : Type} (p : α → Bool) (l : List α)
    (h : l.dropWhile p ≠ []) : (l.dropWhile p).getLast? = l.getLast? := by
  induction l with
  | nil => simp at h
  | cons b t ih =>
      cases hb : p b
      · rw [List.dropWhile_cons, if_neg (by simp [hb])]
      · rw [List.dropWhile_cons, if_pos (by simp [hb])] at h ⊢
        have ht : t ≠ [] := by
          intro h0
          exact h (by simp [h0, List.dropWhile])
        rw [ih h]
        cases t with
        | nil => exact absurd rfl ht
        | cons c t2 => exact (List.getLast?_cons_cons).symm

/-- A list whose head does not satisfy `p` is untouched by `dropWhile p`. -/
lemma dropWhile_eq_self_of_head {α : Type} (p : α → Bool) (l : List α)
    (h : ∀ a, l.head? = some a → p a = false) : l.dropWhile p = l := by
  cases l with
  | nil => rfl
  | cons a t =>
      rw [List.dropWhile_cons, if_neg]
      simp [h a rfl]

/-- Stripping both ends of a character list is idempotent. -/
lemma pyStripList_idem (l : List Char) :
    pyStripList (pyStripList l) = pyStripList l := by
  by_cases hm : pyStripList l = []
  · rw [hm]; rfl
  · have hv : pyStripList l =
        ((l.dropWhile isPyWhitespace).reverse.dropWhile isPyWhitespace).reverse :=
      rfl
    set q := isPyWhitespace with hq
    set u := l.dropWhile q with hu
    set v := u.reverse.dropWhile q with hvv
    have hvne : v ≠ [] := by
      intro h0
      exact hm (by rw [hv, h0]; rfl)
    have hune : u ≠ [] := by
      intro h0
      apply hvne
      rw [hvv, h0]
      rfl
    have hhead : ∀ a, (v.reverse).head? = some a → q a = false := by
      intro a ha
      rw [List.head?_reverse] at ha
      rw [hvv] at ha
      rw [getLast?_dropWhile_ne_nil q u.reverse (by rw [← hvv]; exact hvne)] at ha
      rw [List.getLast?_reverse] at ha
      have hd := head?_dropWhile_false q l a
      rw [← hu] at hd
      exact hd ha
    have step1 : (v.reverse).dropWhile q = v.reverse :=
      dropWhile_eq_self_of_head q v.reverse hhead
    calc pyStripList (pyStripList l)
        = pyStripList v.reverse := by rw [hv]
      _ = ((v.reverse.dropWhile q).reverse.dropWhile q).reverse := rfl
      _ = ((v.reverse).reverse.dropWhile q).reverse := by rw [step1]
      _ = (v.dropWhile q).reverse := by rw [List.reverse_reverse]
      _ = v.reverse := by rw [hvv, dropWhile_self_dropWhile]
      _ = pyStripList l := by rw [hv]

/-- `pyStrip` is idempotent. -/
lemma pyStrip_idem (s : String) : pyStrip (pyStrip s) = pyStrip s := by
  show (⟨pyStripList (pyStripList s.data)⟩ : String) = ⟨pyStripList s.data⟩
  rw [pyStripList_idem]

/-- Every event the step loop emits is a `stepWorld` event. -/
lemma stepLoop_events (eng : EngineEnv) :
    ∀ (fuel i : Nat) (e : Event), e ∈ (stepLoop eng fuel i).1 →
      ∃ j, e = Event.stepWorld j := by
  intro fuel
  induction fuel with
  | zero => intro i e h; simp [stepLoop] at h
  | succ n ih =>
      intro i e h
      by_cases hc : (eng.running i && !eng.exiting i) = true
      · cases hx : eng.stepExc i with
        | none =>
            simp only [stepLoop, if_pos hc, hx] at h
            rcases List.mem_cons.mp h with h1 | h2
            · exact ⟨i, h1⟩
            · exact ih (i + 1) e h2
        | some ex =>
            cases ex <;> simp only [stepLoop, if_pos hc, hx] at h <;>
              simp at h <;> exact ⟨i, h⟩
      · simp only [stepLoop, if_neg hc] at h
        simp at h

/-- A filter rejecting print events empties a print-only trace. -/
lemma filter_map_print_nil (p : Event → Bool) (hp : ∀ s, p (Event.print s) = false)
    (l : List String) : (l.map Event.print).filter p = [] := by
  induction l with
  | nil => rfl
  | cons a t ih => simp [List.filter_cons, hp a, ih]

/-- The run-loop trace holds only step, close and print events, so a filter
rejecting all three empties it. -/
lemma runUntilClosed_filter_nil (p : Event → Bool) (eng : EngineEnv) (fuel : Nat)
    (hstep : ∀ i, p (Event.stepWorld i) = false)
    (hclose : p Event.closeEngine = false)
    (hprint : ∀ s, p (Event.print s) = false) :
    (runUntilClosed eng fuel).1.filter p = [] := by
  rw [List.filter_eq_nil_iff]
  intro e he
  have hcases : (∃ j, e = Event.stepWorld j) ∨ e = Event.closeEngine ∨
      ∃ s, e = Event.print s := by
    rcases hx : (stepLoop eng fuel 0).2 with _ | _ | ex | _ <;>
        simp only [runUntilClosed, hx] at he
    · rcases List.mem_append.mp he with h1 | h2
      · exact Or.inl (stepLoop_events eng fuel 0 e h1)
      · simp at h2
        rcases h2 with h2 | h2
        · exact Or.inr (Or.inl h2)
        · exact Or.inr (Or.inr ⟨_, h2⟩)
    · rcases List.mem_append.mp he with h1 | h2
      · exact Or.inl (stepLoop_events eng fuel 0 e h1)
      · simp at h2
        rcases h2 with h2 | h2 | h2
        · exact Or.inr (Or.inr ⟨_, h2⟩)
        · exact Or.inr (Or.inl h2)
        · exact Or.inr (Or.inr ⟨_, h2⟩)
    · rcases List.mem_append.mp he with h1 | h2
      · exact Or.inl (stepLoop_events eng fuel 0 e h1)
      · simp at h2
        rcases h2 with h2 | h2
        · exact Or.inr (Or.inl h2)
        · exact Or.inr (Or.inr ⟨_, h2⟩)
    · exact Or.inl (stepLoop_events eng fuel 0 e he)
  rcases hcases with ⟨j, rfl⟩ | rfl | ⟨s, rfl⟩
  · simp [hstep j]
  · simp [hclose]
  · simp [hprint s]

/-- The engine-configuration block never closes the engine. -/
lemma close_not_mem_configEvents (a : Args) (eng : EngineEnv) (ip : String) :
    Event.closeEngine ∉ configEvents a eng ip := by
  simp [configEvents, print_connection_info]

/-- `takeWhile` passes over a block whose members all satisfy `p`. -/
lemma takeWhile_append_of_all {α : Type} (p : α → Bool) (l1 l2 : List α)
    (h : ∀ x ∈ l1, p x = true) :
    (l1 ++ l2).takeWhile p = l1 ++ l2.takeWhile p := by
  induction l1 with
  | nil => simp
  | cons a t ih =>
      rw [List.cons_append, List.takeWhile_cons, if_pos (h a (by simp))]
      rw [ih (fun x hx => h x (by simp [hx]))]
      rfl

/-- `dropWhile` removes a whole block whose members all satisfy `p`. -/
lemma dropWhile_append_of_all {α : Type} (p : α → Bool) (l1 l2 : List α)
    (h : ∀ x ∈ l1, p x = true) :
    (l1 ++ l2).dropWhile p = l2.dropWhile p := by
  induction l1 with
  | nil => simp
  | cons a t ih =>
      rw [List.cons_append, List.dropWhile_cons, if_pos (h a (by simp))]
      exact ih (fun x hx => h x (by simp [hx]))

/-- When the run loop ends within the observed fuel, the trace of `main`
splits around a unique `closeEngine` event, with nothing but the final print
after it. -/
lemma main_close_decomposition (env : OsEnv) (eng : EngineEnv) (fuel : Nat)
    (a : Args) (ip : String)
    (hArm : asciiLower env.machine ∉ armMachines)
    (hip : (get_ip_address env a.tailscale).2 = ProcResult.ret ip)
    (hterm : (stepLoop eng fuel 0).2 ≠ LoopExit.fuelOut) :
    ∃ l1 l2, (main env eng fuel a).1 = l1 ++ Event.closeEngine :: l2 ∧
      Event.closeEngine ∉ l1 ∧ Event.closeEngine ∉ l2 ∧
      (∀ i, Event.stepWorld i ∉ l2) := by
  have hmain : (main env eng fuel a).1 =
      (Event.detectIpCall :: (get_ip_address env a.tailscale).1.map Event.print)
      ++ configEvents a eng ip ++ (runUntilClosed eng fuel).1 := by
    simp [main, hArm, hip]
  set A := Event.detectIpCall :: (get_ip_address env a.tailscale).1.map Event.print
    with hA
  set B := configEvents a eng ip with hB
  set S := (stepLoop eng fuel 0).1 with hS
  have hnc1 : Event.closeEngine ∉ A := by simp [hA]
  have hnc2 : Event.closeEngine ∉ B := close_not_mem_configEvents a eng ip
  have hnc3 : Event.closeEngine ∉ S := by
    intro hmem
    rcases stepLoop_events eng fuel 0 _ hmem with ⟨j, hj⟩
    cases hj
  have hncAll : ∀ extra : List Event, Event.closeEngine ∉ extra →
      Event.closeEngine ∉ A ++ B ++ S ++ extra := by
    intro extra hx
    simp only [List.mem_append]
    rintro (((h | h) | h) | h)
    exacts [hnc1 h, hnc2 h, hnc3 h, hx h]
  rcases hx : (stepLoop eng fuel 0).2 with _ | _ | e | _
  · refine ⟨A ++ B ++ S, [Event.print "Isaac Sim closed successfully."],
      ?_, ?_, ?_, ?_⟩
    · rw [hmain]
      have hrun : (runUntilClosed eng fuel).1 =
          S ++ [Event.closeEngine, Event.print "Isaac Sim closed successfully."] := by
        simp [runUntilClosed, hx]
      rw [hrun]
      simp [List.append_assoc]
    · have hz := hncAll [] (by simp)
      simpa using hz
    · simp
    · intro i; simp
  · refine ⟨A ++ B ++ S ++ [Event.print "\nShutting down Isaac Sim..."],
      [Event.print "Isaac Sim closed successfully."], ?_, ?_, ?_, ?_⟩
    · rw [hmain]
      have hrun : (runUntilClosed eng fuel).1 =
          S ++ [Event.print "\nShutting down Isaac Sim...", Event.closeEngine,
                Event.print "Isaac Sim closed successfully."] := by
        simp [runUntilClosed, hx]
      rw [hrun]
      simp [List.append_assoc]
    · exact hncAll _ (by simp)
    · simp
    · intro i; simp
  · refine ⟨A ++ B ++ S, [Event.print "Isaac Sim closed successfully."],
      ?_, ?_, ?_, ?_⟩
    · rw [hmain]
      have hrun : (runUntilClosed eng fuel).1 =
          S ++ [Event.closeEngine, Event.print "Isaac Sim closed successfully."] := by
        simp [runUntilClosed, hx]
      rw [hrun]
      simp [List.append_assoc]
    · have hz := hncAll [] (by simp)
      simpa using hz
    · simp
    · intro i; simp
  · exact absurd hx hterm

/-- Claim C1: on either IP-resolution path, an absent command, a non-zero
exit, a timeout (public-IP path) or whitespace-only output makes the process
end with a non-zero status (exit 1 — an uncaught `FileNotFoundError` on the
curl path also terminates CPython with status 1); in particular an absent
tailscale command exits 1 with the specific message, and a public-IP probe
beyond its timeout exits 1. -/
theorem claim_C1_ip_detection_failure_exits (env : OsEnv) :
    (env.tailscaleCmd.found = false →
        (get_ip_address env true).2 = ProcResult.exit 1 ∧
        tailscaleNotFoundMsg ∈ (get_ip_address env true).1) ∧
    (env.curlCmd.found = false →
        processExitCode (get_ip_address env false).2 = some 1) ∧
    (∀ r, env.tailscaleCmd.found = true → env.tailscaleCmd.runtime = some r →
        env.tailscaleCmd.exitCode ≠ 0 →
        (get_ip_address env true).2 = ProcResult.exit 1) ∧
    (env.curlCmd.found = true → env.curlCmd.exitCode ≠ 0 →
        (get_ip_address env false).2 = ProcResult.exit 1) ∧
    (env.curlCmd.found = true → (∀ r, env.curlCmd.runtime = some r → 10 < r) →
        (get_ip_address env false).2 = ProcResult.exit 1) ∧
    (∀ r, env.tailscaleCmd.found = true → env.tailscaleCmd.runtime = some r →
        env.tailscaleCmd.exitCode = 0 → pyStrip env.tailscaleCmd.stdout = "" →
        (get_ip_address env true).2 = ProcResult.exit 1) ∧
    (∀ r, env.curlCmd.found = true → env.curlCmd.runtime = some r → r ≤ 10 →
        env.curlCmd.exitCode = 0 → pyStrip env.curlCmd.stdout = "" →
        (get_ip_address env false).2 = ProcResult.exit 1) := by
  refine ⟨?_, ?_, ?_, ?_, ?_, ?_, ?_⟩
  · intro hf
    have hr : subprocessRun env.tailscaleCmd none = .exc .fileNotFound := by
      simp [subprocessRun, hf]
    simp [get_ip_address, hr, tailscaleNotFoundMsg]
  · intro hf
    have hr : subprocessRun env.curlCmd (some 10) = .exc .fileNotFound := by
      simp [subprocessRun, hf]
    simp [get_ip_address, hr, processExitCode]
  · intro r hf hrt hec
    have hr : subprocessRun env.tailscaleCmd none =
        .exc (.calledProcessError env.tailscaleCmd.exitCode) := by
      simp [subprocessRun, hf, hrt, hec]
    simp [get_ip_address, hr]
  · intro hf hec
    rcases hrt : env.curlCmd.runtime with _ | r
    · have hr : subprocessRun env.curlCmd (some 10) = .exc .timeoutExpired := by
        simp [subprocessRun, hf, hrt]
      simp [get_ip_address, hr]
    · by_cases h10 : 10 < r
      · have hr : subprocessRun env.curlCmd (some 10) = .exc .timeoutExpired := by
          simp [subprocessRun, hf, hrt, h10]
        simp [get_ip_address, hr]
      · have hr : subprocessRun env.curlCmd (some 10) =
            .exc (.calledProcessError env.curlCmd.exitCode) := by
          simp [subprocessRun, hf, hrt, h10, hec]
        simp [get_ip_address, hr]
  · intro hf hto
    rcases hrt : env.curlCmd.runtime with _ | r
    · have hr : subprocessRun env.curlCmd (some 10) = .exc .timeoutExpired := by
        simp [subprocessRun, hf, hrt]
      simp [get_ip_address, hr]
    · have hr : subprocessRun env.curlCmd (some 10) = .exc .timeoutExpired := by
        simp [subprocessRun, hf, hrt, hto r hrt]
      simp [get_ip_address, hr]
  · intro r hf hrt hec hes
    have hr : subprocessRun env.tailscaleCmd none = .ok env.tailscaleCmd.stdout := by
      simp [subprocessRun, hf, hrt, hec]
    simp [get_ip_address, hr, hes]
  · intro r hf hrt h10 hec hes
    have hr : subprocessRun env.curlCmd (some 10) = .ok env.curlCmd.stdout := by
      simp [subprocessRun, hf, hrt, hec]
      omega
    simp [get_ip_address, hr, hes]

/-- Witness for claim C1: concrete environments exercising the absent
tailscale command (exit 1 with the specific message), the absent curl
command (status 1 via the uncaught exception) and the slow curl probe. -/
theorem claim_C1_ip_detection_failure_exits_witness :
    ((get_ip_address envTsAbsent true).2 = ProcResult.exit 1 ∧
      tailscaleNotFoundMsg ∈ (get_ip_address envTsAbsent true).1) ∧
    processExitCode (get_ip_address envCurlAbsent false).2 = some 1 ∧
    (get_ip_address envCurlSlow false).2 = ProcResult.exit 1 :=
  ⟨(claim_C1_ip_detection_failure_exits envTsAbsent).1 rfl,
   (claim_C1_ip_detection_failure_exits envCurlAbsent).2.1 rfl,
   (claim_C1_ip_detection_failure_exits envCurlSlow).2.2.2.2.1 rfl
     (fun r hr => by
        simp only [envCurlSlow, envCurlOk] at hr
        simp at hr
        omega)⟩

/-- Claim C2: once execution reaches the run loop, whenever the loop ends
(engine stopped or exiting, interrupt, or any exception escaping the loop)
the trace of `main` records exactly one `closeEngine` event, and no world
step happens after it. -/
theorem claim_C2_engine_closed_exactly_once (env : OsEnv) (eng : EngineEnv)
    (fuel : Nat) (a : Args) (ip : String)
    (hArm : asciiLower env.machine ∉ armMachines)
    (hip : (get_ip_address env a.tailscale).2 = ProcResult.ret ip)
    (hterm : (stepLoop eng fuel 0).2 ≠ LoopExit.fuelOut) :
    (main env eng fuel a).1.count Event.closeEngine = 1 ∧
    (∀ i, Event.stepWorld i ∉ afterFirstClose (main env eng fuel a).1) := by
  obtain ⟨l1, l2, heq, h1, h2, h3⟩ :=
    main_close_decomposition env eng fuel a ip hArm hip hterm
  constructor
  · rw [heq, List.count_append, List.count_cons_self,
        List.count_eq_zero_of_not_mem h1, List.count_eq_zero_of_not_mem h2]
  · intro i
    have hafter : afterFirstClose (main env eng fuel a).1 = l2 := by
      rw [heq, afterFirstClose,
          dropWhile_append_of_all _ l1 _ (fun x hx => by
            simp only [bne_iff_ne, ne_eq]
            intro h0
            exact h1 (h0 ▸ hx)),
          List.dropWhile_cons]
      simp
    rw [hafter]
    exact h3 i

/-- Witness for claim C2: a run interrupted at the second frame closes the
engine exactly once, with no step after the close. -/
theorem claim_C2_engine_closed_exactly_once_witness :
    (main envCurlOk engInterrupt 5 {}).1.count Event.closeEngine = 1 ∧
    Event.stepWorld 0 ∉ afterFirstClose (main envCurlOk engInterrupt 5 {}).1 := by
  have h := claim_C2_engine_closed_exactly_once envCurlOk engInterrupt 5 {}
    "203.0.113.7" (by decide) (by decide) (by decide)
  exact ⟨h.1, h.2 0⟩

/-- Claim C3: on a machine reporting an ARM64/aarch64 architecture, `main`
exits with status 0 and its trace holds no module import, no IP detection
and no environment-variable write. -/
theorem claim_C3_arm64_early_exit (env : OsEnv) (eng : EngineEnv) (fuel : Nat)
    (a : Args) (h : asciiLower env.machine ∈ armMachines) :
    (main env eng fuel a).2 = ProcResult.exit 0 ∧
    (∀ s, Event.importModule s ∉ (main env eng fuel a).1) ∧
    Event.detectIpCall ∉ (main env eng fuel a).1 ∧
    (∀ n v, Event.setEnvVar n v ∉ (main env eng fuel a).1) := by
  simp [main, h]

/-- Witness for claim C3: a machine reporting `aarch64` exits 0 without
importing the engine, detecting an IP, or writing the GPU variable. -/
theorem claim_C3_arm64_early_exit_witness :
    (main envArmLower engStops 5 {}).2 = ProcResult.exit 0 ∧
    Event.importModule "isaacsim" ∉ (main envArmLower engStops 5 {}).1 ∧
    Event.detectIpCall ∉ (main envArmLower engStops 5 {}).1 ∧
    Event.setEnvVar "CUDA_VISIBLE_DEVICES" "0" ∉ (main envArmLower engStops 5 {}).1 :=
  ⟨(claim_C3_arm64_early_exit envArmLower engStops 5 {} (by decide)).1,
   (claim_C3_arm64_early_exit envArmLower engStops 5 {} (by decide)).2.1 "isaacsim",
   (claim_C3_arm64_early_exit envArmLower engStops 5 {} (by decide)).2.2.1,
   (claim_C3_arm64_early_exit envArmLower engStops 5 {} (by decide)).2.2.2
     "CUDA_VISIBLE_DEVICES" "0"⟩

/-- Claim C4: whenever the public-IP probe succeeds, the stripped probe
output is exactly the value passed to the setting
`/app/livestream/publicEndpointAddress`. -/
theorem claim_C4_endpoint_setting_from_probe (env : OsEnv) (eng : EngineEnv)
    (fuel : Nat) (a : Args) (r : Nat)
    (hArm : asciiLower env.machine ∉ armMachines)
    (hts : a.tailscale = false)
    (hf : env.curlCmd.found = true)
    (hrt : env.curlCmd.runtime = some r) (h10 : r ≤ 10)
    (hec : env.curlCmd.exitCode = 0)
    (hne : pyStrip env.curlCmd.stdout ≠ "") :
    Event.setSetting "/app/livestream/publicEndpointAddress"
      (SettingVal.s (pyStrip env.curlCmd.stdout)) ∈ (main env eng fuel a).1 := by
  have hip : (get_ip_address env a.tailscale).2 =
      ProcResult.ret (pyStrip env.curlCmd.stdout) := by
    rw [hts]
    have hr : subprocessRun env.curlCmd (some 10) = .ok env.curlCmd.stdout := by
      simp [subprocessRun, hf, hrt, hec]
      omega
    simp [get_ip_address, hr, hne]
  simp [main, hArm, hip, configEvents]

/-- Witness for claim C4: a probe printing `203.0.113.7` makes exactly that
string the configured endpoint address. -/
theorem claim_C4_endpoint_setting_from_probe_witness :
    Event.setSetting "/app/livestream/publicEndpointAddress"
      (SettingVal.s "203.0.113.7") ∈ (main envCurlOk engStops 5 {}).1 := by
  have e : pyStrip envCurlOk.curlCmd.stdout = "203.0.113.7" := by decide
  have h := claim_C4_endpoint_setting_from_probe envCurlOk engStops 5 {} 1
    (by decide) rfl rfl rfl (by decide) rfl (by decide)
  exact e ▸ h

/-- Claim C5: after the engine launch, `main` performs exactly five
`set_setting` calls — mouse draw true, the detected endpoint IP, the port,
multi-GPU false, the active GPU — followed by exactly three
`enable_extension` calls, in that order. -/
theorem claim_C5_five_settings_three_extensions (env : OsEnv) (eng : EngineEnv)
    (fuel : Nat) (a : Args) (ip : String)
    (hArm : asciiLower env.machine ∉ armMachines)
    (hip : (get_ip_address env a.tailscale).2 = ProcResult.ret ip) :
    (main env eng fuel a).1.filter isConfigCallEvt =
      [.setSetting "/app/window/drawMouse" (.b true),
       .setSetting "/app/livestream/publicEndpointAddress" (.s ip),
       .setSetting "/app/livestream/port" (.i a.port),
       .setSetting "/renderer/multiGpu/Enabled" (.b false),
       .setSetting "/renderer/activeGpu" (.i a.gpu),
       .enableExtension "omni.services.livestream.nvcf",
       .enableExtension "omni.kit.widget.stage",
       .enableExtension "omni.kit.widget.layers"] ∧
    (main env eng fuel a).1.filter isSetSettingEvt =
      [.setSetting "/app/window/drawMouse" (.b true),
       .setSetting "/app/livestream/publicEndpointAddress" (.s ip),
       .setSetting "/app/livestream/port" (.i a.port),
       .setSetting "/renderer/multiGpu/Enabled" (.b false),
       .setSetting "/renderer/activeGpu" (.i a.gpu)] ∧
    (main env eng fuel a).1.filter isEnableExtEvt =
      [.enableExtension "omni.services.livestream.nvcf",
       .enableExtension "omni.kit.widget.stage",
       .enableExtension "omni.kit.widget.layers"] := by
  have hmain : (main env eng fuel a).1 =
      (Event.detectIpCall :: (get_ip_address env a.tailscale).1.map Event.print)
      ++ configEvents a eng ip ++ (runUntilClosed eng fuel).1 := by
    simp [main, hArm, hip]
  have key : ∀ p : Event → Bool, p Event.detectIpCall = false →
      (∀ s, p (Event.print s) = false) → (∀ i, p (Event.stepWorld i) = false) →
      p Event.closeEngine = false →
      (main env eng fuel a).1.filter p = (configEvents a eng ip).filter p := by
    intro p h1 h2 h3 h4
    rw [hmain, List.filter_append, List.filter_append, List.filter_cons]
    rw [filter_map_print_nil p h2, runUntilClosed_filter_nil p eng fuel h3 h4 h2]
    simp [h1]
  refine ⟨?_, ?_, ?_⟩
  · rw [key isConfigCallEvt rfl (fun _ => rfl) (fun _ => rfl) rfl]
    rw [configEvents, List.filter_append,
        filter_map_print_nil isConfigCallEvt (fun _ => rfl)]
    simp [List.filter_cons, isConfigCallEvt, isSetSettingEvt, isEnableExtEvt]
  · rw [key isSetSettingEvt rfl (fun _ => rfl) (fun _ => rfl) rfl]
    rw [configEvents, List.filter_append,
        filter_map_print_nil isSetSettingEvt (fun _ => rfl)]
    simp [List.filter_cons, isSetSettingEvt]
  · rw [key isEnableExtEvt rfl (fun _ => rfl) (fun _ => rfl) rfl]
    rw [configEvents, List.filter_append,
        filter_map_print_nil isEnableExtEvt (fun _ => rfl)]
    simp [List.filter_cons, isEnableExtEvt]

/-- Witness for claim C5: the default run with the concrete environment
performs exactly the five settings then the three extensions. -/
theorem claim_C5_five_settings_three_extensions_witness :
    (main envCurlOk engStops 5 {}).1.filter isConfigCallEvt =
      [.setSetting "/app/window/drawMouse" (.b true),
       .setSetting "/app/livestream/publicEndpointAddress" (.s "203.0.113.7"),
       .setSetting "/app/livestream/port" (.i 49100),
       .setSetting "/renderer/multiGpu/Enabled" (.b false),
       .setSetting "/renderer/activeGpu" (.i 0),
       .enableExtension "omni.services.livestream.nvcf",
       .enableExtension "omni.kit.widget.stage",
       .enableExtension "omni.kit.widget.layers"] ∧
    (main envCurlOk engStops 5 {}).1.filter isSetSettingEvt =
      [.setSetting "/app/window/drawMouse" (.b true),
       .setSetting "/app/livestream/publicEndpointAddress" (.s "203.0.113.7"),
       .setSetting "/app/livestream/port" (.i 49100),
       .setSetting "/renderer/multiGpu/Enabled" (.b false),
       .setSetting "/renderer/activeGpu" (.i 0)] ∧
    (main envCurlOk engStops 5 {}).1.filter isEnableExtEvt =
      [.enableExtension "omni.services.livestream.nvcf",
       .enableExtension "omni.kit.widget.stage",
       .enableExtension "omni.kit.widget.layers"] :=
  claim_C5_five_settings_three_extensions envCurlOk engStops 5 {} "203.0.113.7"
    (by decide) (by decide)

/-- Claim C6: the public-IP subprocess call carries a hard 10-second
timeout — exceeding it (or never finishing) exits 1, staying within it
succeeds — while the tailscale call is unbounded: its result is independent
of any finite runtime, and a command that never finishes blocks forever
instead of timing out. -/
theorem claim_C6_timeout_only_on_public_path :
    (∀ env : OsEnv, ∀ r : Nat, env.curlCmd.found = true →
        env.curlCmd.runtime = some r → 10 < r →
        (get_ip_address env false).2 = ProcResult.exit 1) ∧
    (∀ env : OsEnv, env.curlCmd.found = true → env.curlCmd.runtime = none →
        (get_ip_address env false).2 = ProcResult.exit 1) ∧
    (∀ env : OsEnv, ∀ r s : Nat,
        get_ip_address (setTsRuntime env (some r)) true =
        get_ip_address (setTsRuntime env (some s)) true) ∧
    (∀ env : OsEnv, env.tailscaleCmd.found = true →
        env.tailscaleCmd.runtime = none →
        (get_ip_address env true).2 = ProcResult.hang) ∧
    (∀ env : OsEnv, ∀ r : Nat, env.curlCmd.found = true →
        env.curlCmd.runtime = some r → r ≤ 10 → env.curlCmd.exitCode = 0 →
        pyStrip env.curlCmd.stdout ≠ "" →
        (get_ip_address env false).2 =
          ProcResult.ret (pyStrip env.curlCmd.stdout)) := by
  refine ⟨?_, ?_, ?_, ?_, ?_⟩
  · intro env r hf hrt h10
    have hr : subprocessRun env.curlCmd (some 10) = .exc .timeoutExpired := by
      simp [subprocessRun, hf, hrt, h10]
    simp [get_ip_address, hr]
  · intro env hf hrt
    have hr : subprocessRun env.curlCmd (some 10) = .exc .timeoutExpired := by
      simp [subprocessRun, hf, hrt]
    simp [get_ip_address, hr]
  · intro env r s
    cases hf : env.tailscaleCmd.found <;>
      simp [get_ip_address, subprocessRun, setTsRuntime, hf]
  · intro env hf hrt
    have hr : subprocessRun env.tailscaleCmd none = .hang := by
      simp [subprocessRun, hf, hrt]
    simp [get_ip_address, hr]
  · intro env r hf hrt h10 hec hne
    have hr : subprocessRun env.curlCmd (some 10) = .ok env.curlCmd.stdout := by
      simp [subprocessRun, hf, hrt, hec]
      omega
    simp [get_ip_address, hr, hne]

/-- Witness for claim C6: an 11-second curl run times out and exits 1, the
tailscale path behaves identically at runtimes 5 and 500 and hangs on a
never-finishing command, and a 1-second curl run succeeds. -/
theorem claim_C6_timeout_only_on_public_path_witness :
    (get_ip_address envCurlSlow false).2 = ProcResult.exit 1 ∧
    get_ip_address (setTsRuntime envCurlOk (some 5)) true =
      get_ip_address (setTsRuntime envCurlOk (some 500)) true ∧
    (get_ip_address envTsHang true).2 = ProcResult.hang ∧
    (get_ip_address envCurlOk false).2 = ProcResult.ret "203.0.113.7" := by
  have e : pyStrip envCurlOk.curlCmd.stdout = "203.0.113.7" := by decide
  refine ⟨claim_C6_timeout_only_on_public_path.1 envCurlSlow 11 rfl rfl (by omega),
          claim_C6_timeout_only_on_public_path.2.2.1 envCurlOk 5 500,
          claim_C6_timeout_only_on_public_path.2.2.2.1 envTsHang rfl rfl,
          ?_⟩
  have h := claim_C6_timeout_only_on_public_path.2.2.2.2 envCurlOk 1
    rfl rfl (by omega) rfl (by decide)
  exact e ▸ h

/-- Claim C7: the CLI accepts exactly the options `--port` (default 49100),
`--gpu` (default 0) and `--tailscale` (default false): an empty command line
yields the declared defaults, each option overrides only its own field, and
any other option is rejected. -/
theorem claim_C7_cli_flags_defaults :
    ({} : Args) = { port := 49100, gpu := 0, tailscale := false } ∧
    parseCli [] = Except.ok { port := 49100, gpu := 0, tailscale := false } ∧
    (∀ n, parseCli [CliArg.portOpt n] =
      Except.ok { port := n, gpu := 0, tailscale := false }) ∧
    (∀ n, parseCli [CliArg.gpuOpt n] =
      Except.ok { port := 49100, gpu := n, tailscale := false }) ∧
    parseCli [CliArg.tailscaleFlag] =
      Except.ok { port := 49100, gpu := 0, tailscale := true } ∧
    (∀ s, parseCli [CliArg.unknown s] = Except.error ("No such option: " ++ s)) :=
  ⟨rfl, rfl, fun _ => rfl, fun _ => rfl, rfl, fun _ => rfl⟩

/-- Claim C8: past the architecture check, whenever the engine module gets
imported, the `CUDA_VISIBLE_DEVICES` write with the string form of the
`--gpu` value stands strictly before the first import in the trace. -/
theorem claim_C8_env_var_before_engine_import (env : OsEnv) (eng : EngineEnv)
    (fuel : Nat) (a : Args)
    (hArm : asciiLower env.machine ∉ armMachines) :
    ∀ s, Event.importModule s ∈ (main env eng fuel a).1 →
      Event.setEnvVar "CUDA_VISIBLE_DEVICES" (toString a.gpu) ∈
        beforeFirstImport (main env eng fuel a).1 := by
  intro s him
  rcases hip : (get_ip_address env a.tailscale).2 with ip | n | e | _
  · have hmain : (main env eng fuel a).1 =
        (Event.detectIpCall :: (get_ip_address env a.tailscale).1.map Event.print)
        ++ configEvents a eng ip ++ (runUntilClosed eng fuel).1 := by
      simp [main, hArm, hip]
    rw [hmain, beforeFirstImport, List.append_assoc,
        takeWhile_append_of_all _ _ _ (by
          intro x hx
          rcases List.mem_cons.mp hx with h1 | h1
          · rw [h1]; rfl
          · rcases List.mem_map.mp h1 with ⟨t, _, ht⟩
            rw [← ht]; rfl)]
    simp [configEvents, List.cons_append, List.takeWhile_cons, isImportEvt]
  · have hmain : (main env eng fuel a).1 =
        Event.detectIpCall :: (get_ip_address env a.tailscale).1.map Event.print := by
      simp [main, hArm, hip]
    rw [hmain] at him
    rcases List.mem_cons.mp him with h1 | h1
    · cases h1
    · rcases List.mem_map.mp h1 with ⟨t, _, ht⟩
      cases ht
  · have hmain : (main env eng fuel a).1 =
        Event.detectIpCall :: (get_ip_address env a.tailscale).1.map Event.print := by
      simp [main, hArm, hip]
    rw [hmain] at him
    rcases List.mem_cons.mp him with h1 | h1
    · cases h1
    · rcases List.mem_map.mp h1 with ⟨t, _, ht⟩
      cases ht
  · have hmain : (main env eng fuel a).1 =
        Event.detectIpCall :: (get_ip_address env a.tailscale).1.map Event.print := by
      simp [main, hArm, hip]
    rw [hmain] at him
    rcases List.mem_cons.mp him with h1 | h1
    · cases h1
    · rcases List.mem_map.mp h1 with ⟨t, _, ht⟩
      cases ht

/-- Witness for claim C8: in the concrete default run, the GPU variable
write appears strictly before the first engine import. -/
theorem claim_C8_env_var_before_engine_import_witness :
    Event.setEnvVar "CUDA_VISIBLE_DEVICES" "0" ∈
      beforeFirstImport (main envCurlOk engStops 5 {}).1 := by
  have e : toString ({} : Args).gpu = "0" := by decide
  have h := claim_C8_env_var_before_engine_import envCurlOk engStops 5 {}
    (by decide) "isaacsim" (by decide)
  exact e ▸ h

/-- Claim C9: whenever `get_ip_address` returns normally, the returned
string is non-empty and carries no leading or trailing whitespace. -/
theorem claim_C9_returned_ip_nonempty_stripped (env : OsEnv) (b : Bool)
    (s : String) (h : (get_ip_address env b).2 = ProcResult.ret s) :
    s ≠ "" ∧ pyStrip s = s := by
  cases b
  · cases hr : subprocessRun env.curlCmd (some 10) with
    | ok out =>
        simp only [get_ip_address, Bool.false_eq_true, if_false, hr] at h
        by_cases he : pyStrip out = ""
        · simp [he] at h
        · simp [he] at h
          exact h ▸ ⟨he, pyStrip_idem out⟩
    | exc e =>
        cases e <;> simp [get_ip_address, hr] at h
    | hang =>
        simp [get_ip_address, hr] at h
  · cases hr : subprocessRun env.tailscaleCmd none with
    | ok out =>
        simp only [get_ip_address, if_true, hr] at h
        by_cases he : pyStrip out = ""
        · simp [he] at h
        · simp [he] at h
          exact h ▸ ⟨he, pyStrip_idem out⟩
    | exc e =>
        cases e <;> simp [get_ip_address, hr] at h
    | hang =>
        simp [get_ip_address, hr] at h

/-- Witness for claim C9: the concrete successful probe returns a non-empty,
already-stripped string. -/
theorem claim_C9_returned_ip_nonempty_stripped_witness :
    ("203.0.113.7" : String) ≠ "" ∧ pyStrip "203.0.113.7" = "203.0.113.7" :=
  claim_C9_returned_ip_nonempty_stripped envCurlOk false "203.0.113.7" (by decide)

/-- Claim C10: the architecture check is case-insensitive — any machine
string whose ASCII lowercase form is `aarch64` or `arm64` exits 0, and any
other machine string proceeds to IP detection. -/
theorem claim_C10_arch_check_case_insensitive (env : OsEnv) (eng : EngineEnv)
    (fuel : Nat) (a : Args) :
    (asciiLower env.machine ∈ armMachines →
      (main env eng fuel a).2 = ProcResult.exit 0) ∧
    (asciiLower env.machine ∉ armMachines →
      Event.detectIpCall ∈ (main env eng fuel a).1) := by
  constructor
  · intro h
    simp [main, h]
  · intro h
    rcases h2 : (get_ip_address env a.tailscale).2 with ip | n | e | _ <;>
      simp [main, h, h2]

/-- Witness for claim C10: `ARM64` and `AArch64` exit 0; `x86_64` proceeds
to IP detection. -/
theorem claim_C10_arch_check_case_insensitive_witness :
    (main envArmUpper engStops 5 {}).2 = ProcResult.exit 0 ∧
    (main envArmMixed engStops 5 {}).2 = ProcResult.exit 0 ∧
    Event.detectIpCall ∈ (main envCurlOk engStops 5 {}).1 :=
  ⟨(claim_C10_arch_check_case_insensitive envArmUpper engStops 5 {}).1 (by decide),
   (claim_C10_arch_check_case_insensitive envArmMixed engStops 5 {}).1 (by decide),
   (claim_C10_arch_check_case_insensitive envCurlOk engStops 5 {}).2 (by decide)⟩

end EasyReach
